import Mathlib

/-!
Contact form API: validation chains and request handlers

A shallow embedding of `src/backend/server.js`.

* The request body is a mapping from field names to JSON values: absent
  (`undefined`), `null`, booleans, numbers, text, arrays and objects.  A
  number is given by the text JavaScript prints for it.  Texts are sequences
  of Unicode characters (no lone surrogates); objects that carry their own
  `toString` or `valueOf` property are outside the model.
* The validation chains of the contact route (server.js lines 56-93) are
  built with the same chain methods as the source, and run by an interpreter
  that follows the chain runner of the validation middleware: every item of
  a chain runs (no bail); a sanitizer rewrites the field of the body, an
  array element by element; a validator checks the value, an array element
  by element, and appends one error per failing element.
* The two functions of the validation library whose definition is a large
  table-driven check (`isEmail`, `normalizeEmail`) are parameters (`Lib`).
* The store is an external service: its reply to a call is an input of the
  handler, and the handler returns the trace of its effects.
-/

namespace ContactApi

/-! ## Values and request bodies -/

/-- A value held by a field of the request body.  A number carries the text
JavaScript prints for it (`String(n)`). -/
inductive Value where
  | undefined
  | null
  | bool (b : Bool)
  | num (text : String)
  | str (s : String)
  | arr (elems : List Value)
  | obj (fields : List (String × Value))
deriving Repr

/-- JavaScript truthiness: `undefined`, `null`, `false`, zero and the empty
text are falsy; arrays (the empty one too) and objects are truthy. -/
def Value.truthy : Value → Bool
  | .undefined => false
  | .null => false
  | .bool b => b
  | .num t => !(t == "0")
  | .str s => !(s.length == 0)
  | .arr _ => true
  | .obj _ => true

/-- Whether a value is an array. -/
def Value.isArray : Value → Bool
  | .arr _ => true
  | _ => false

/-- The items a validator or sanitizer visits: the elements of an array, the
value itself otherwise. -/
def Value.elements : Value → List Value
  | .arr es => es
  | v => [v]

/-- Applies a function to every element of an array, or to the value itself
when it is not an array. -/
def Value.mapElements (f : Value → Value) : Value → Value
  | .arr es => .arr (es.map f)
  | v => f v

mutual
/-- The text of a value without descending into a leading element: absent and
null values give the empty text, an array is joined with commas, an object
prints as `[object Object]`. -/
def Value.jsText : Value → String
  | .undefined => ""
  | .null => ""
  | .bool true => "true"
  | .bool false => "false"
  | .num t => t
  | .str s => s
  | .arr es => Value.jsJoin es
  | .obj _ => "[object Object]"
/-- The elements of an array joined with commas. -/
def Value.jsJoin : List Value → String
  | [] => ""
  | [v] => Value.jsText v
  | v :: w :: rest => Value.jsText v ++ "," ++ Value.jsJoin (w :: rest)
end

/-- The text a validator or sanitizer receives for a value (the conversion
`toString` of the validation middleware): a non-empty array is represented by
its first element. -/
def Value.toText : Value → String
  | .arr (x :: _) => x.jsText
  | v => v.jsText

/-- The request body, `req.body`: a mapping from field name to value. -/
abbrev Body := String → Value

/-- Assignment to a field of the body. -/
def Body.set (b : Body) (field : String) (v : Value) : Body :=
  fun k => if k = field then v else b k

/-! ## Text-level validators and sanitizers -/

namespace Str

/-- The whitespace class of the regular expression `\s`. -/
def isSpace (c : Char) : Bool :=
  let n := c.toNat
  n == 9 || n == 10 || n == 11 || n == 12 || n == 13 || n == 32 || n == 160 ||
  n == 5760 || (8192 ≤ n && n ≤ 8202) || n == 8232 || n == 8233 || n == 8239 ||
  n == 8287 || n == 12288 || n == 65279

/-- Removes leading whitespace. -/
def ltrim (cs : List Char) : List Char := cs.dropWhile isSpace

/-- Removes trailing whitespace. -/
def rtrim (cs : List Char) : List Char := (cs.reverse.dropWhile isSpace).reverse

/-- The `trim` sanitizer: removes leading and trailing whitespace. -/
def trim (s : String) : String := ⟨rtrim (ltrim s.data)⟩

/-- The `isEmpty` validator (whitespace is not ignored). -/
def isEmpty (s : String) : Bool := s.length == 0

/-- The variation selectors U+FE0E and U+FE0F. -/
def isSelector (c : Char) : Bool := c.toNat == 65038 || c.toNat == 65039

/-- The length `isLength` measures: the number of characters, the variation
selectors U+FE0E and U+FE0F not counted. -/
def measure (s : String) : Nat := s.length - (s.data.filter isSelector).length

/-- The `isLength` validator with options `min` and `max`: a missing `min`
is 0, a missing `max` is no upper bound. -/
def isLength (min max : Option Nat) (s : String) : Bool :=
  (min.getD 0 ≤ measure s) && (match max with
    | none => true
    | some m => measure s ≤ m)

/-- The `isIn` validator: membership in a list of allowed texts. -/
def isIn (values : List String) (s : String) : Bool := values.contains s

end Str

/-- The functions of the validation library taken as parameters: the email
check and the email normalizer (which returns a text, or `false`). -/
structure Lib where
  isEmail : String → Bool
  normalizeEmail : String → Value

/-! ## Validation chains -/

/-- One item of a chain: a sanitizer, or a validator with its negation flag
and message. -/
inductive Item where
  | sanitizer (f : String → Value)
  | validator (negated : Bool) (check : String → Bool) (message : Option String)

/-- Whether an item is a validator. -/
def Item.isValidator : Item → Bool
  | .sanitizer _ => false
  | .validator _ _ _ => true

/-- A validation chain for one field of the body. -/
structure Chain where
  field : String
  optionalFalsy : Bool
  stack : List Item

/-- The chain `body(field)`: no items yet, field required. -/
def body (field : String) : Chain := ⟨field, false, []⟩

/-- Sets the message of the last validator of a stack. -/
def setLastMessage (m : String) : List Item → List Item
  | [] => []
  | it :: rest =>
    if rest.any Item.isValidator then it :: setLastMessage m rest
    else match it with
      | .validator n c _ => .validator n c (some m) :: rest
      | .sanitizer f => .sanitizer f :: rest

/-- Chain method `.trim()`. -/
def Chain.trim (c : Chain) : Chain :=
  { c with stack := c.stack ++ [.sanitizer (fun s => .str (Str.trim s))] }

/-- Chain method `.notEmpty()`, the negation of `isEmpty`. -/
def Chain.notEmpty (c : Chain) : Chain :=
  { c with stack := c.stack ++ [.validator true Str.isEmpty none] }

/-- Chain method `.isLength({ min, max })`. -/
def Chain.isLength (c : Chain) (min max : Option Nat) : Chain :=
  { c with stack := c.stack ++ [.validator false (Str.isLength min max) none] }

/-- Chain method `.isEmail()`. -/
def Chain.isEmail (c : Chain) (lib : Lib) : Chain :=
  { c with stack := c.stack ++ [.validator false lib.isEmail none] }

/-- Chain method `.normalizeEmail()`. -/
def Chain.normalizeEmail (c : Chain) (lib : Lib) : Chain :=
  { c with stack := c.stack ++ [.sanitizer lib.normalizeEmail] }

/-- Chain method `.isIn(values)`. -/
def Chain.isIn (c : Chain) (values : List String) : Chain :=
  { c with stack := c.stack ++ [.validator false (Str.isIn values) none] }

/-- Chain method `.optional({ checkFalsy: true })`. -/
def Chain.optional (c : Chain) : Chain := { c with optionalFalsy := true }

/-- Chain method `.withMessage(m)`. -/
def Chain.withMessage (c : Chain) (m : String) : Chain :=
  { c with stack := setLastMessage m c.stack }

/-- One entry of `errors.array()`. -/
structure FieldError where
  value : Value
  msg : String
  path : String
  location : String
deriving Repr

/-- The part of the request the chains read and write: the body and the
validation errors collected so far. -/
structure Request where
  body : Body
  errors : List FieldError

/-- Runs one item of a chain.  An optional chain skips the item when the
current value of the field is falsy.  A sanitizer is applied to the text of
the value, or of each element of an array, and the result is stored in the
body.  A validator is applied to the text of the value, or of each element of
an array, and appends one error per failing element, carrying that element. -/
def runItem (c : Chain) (req : Request) (it : Item) : Request :=
  let v := req.body c.field
  if c.optionalFalsy && !v.truthy then req
  else match it with
    | .sanitizer f =>
      { req with body := req.body.set c.field (v.mapElements (fun e => f e.toText)) }
    | .validator negated check message =>
      let failing := v.elements.filter
        (fun e => if negated then check e.toText else !check e.toText)
      let found := failing.map (fun e => ⟨e, message.getD "Invalid value", c.field, "body"⟩)
      { req with errors := req.errors ++ found }

/-- Runs all the items of a chain, in order. -/
def runChain (req : Request) (c : Chain) : Request :=
  c.stack.foldl (runItem c) req

/-- Runs a list of chains as successive middlewares. -/
def runChains (chains : List Chain) (b : Body) : Request :=
  chains.foldl runChain ⟨b, []⟩

/-- The chains of the contact route, server.js lines 56-93. -/
def contactChains (lib : Lib) : List Chain :=
  [ (body "name").trim.notEmpty.withMessage "Name is required"
      |>.isLength (some 2) (some 255)
      |>.withMessage "Name must be between 2 and 255 characters",
    (body "lastName").trim.notEmpty.withMessage "Last name is required"
      |>.isLength (some 2) (some 255)
      |>.withMessage "Last name must be between 2 and 255 characters",
    (body "email").trim.notEmpty.withMessage "Email is required"
      |>.isEmail lib
      |>.withMessage "Must be a valid email address"
      |>.normalizeEmail lib,
    (body "department").optional.trim.isLength none (some 255)
      |>.withMessage "Department must be less than 255 characters",
    (body "category").trim.notEmpty.withMessage "Category is required"
      |>.isIn ["feedback", "suggestion", "problem"]
      |>.withMessage "Category must be one of: feedback, suggestion, problem",
    (body "message").trim.notEmpty.withMessage "Message is required"
      |>.isLength (some 10) (some 5000)
      |>.withMessage "Message must be between 10 and 5000 characters" ]

/-- The request after the validation middlewares of the contact route. -/
def validate (lib : Lib) (b : Body) : Request := runChains (contactChains lib) b

/-! ## The store and the handlers -/

/-- The object inserted into `contact_submissions`. -/
structure Record where
  name : Value
  last_name : Value
  email : Value
  department : Value
  category : Value
  message : Value
deriving Repr

/-- A stored row: the record with the identifier and timestamp the store assigned. -/
structure Row where
  id : Nat
  created_at : String
  fields : Record
deriving Repr

/-- The error object of a store reply. -/
structure StoreError where
  code : String
  message : String
deriving DecidableEq, Repr

/-- A thrown exception. -/
inductive Exn where
  | store (e : StoreError)
  | typeError (detail : String)
deriving DecidableEq, Repr

/-- The outcome of awaiting a store call: the pair `{ data, error }`
(each possibly null), or a thrown exception. -/
inductive StoreReply where
  | resolved (data : Option (List Row)) (error : Option StoreError)
  | rejected (exn : Exn)
deriving Repr

/-- The values that occur in the JSON bodies of the responses. -/
inductive Json where
  | str (s : String)
  | bool (b : Bool)
  | num (n : Nat)
  | errors (es : List FieldError)
  | rows (rs : List Row)
deriving Repr

/-- The externally visible effects of a handler. -/
inductive Effect where
  | insert (table : String) (rows : List Record)
  | select (table : String) (columns : String) (orderBy : String) (ascending : Bool)
  | consoleError (label : String) (exn : Exn)
  | consoleLog (label : String) (id : Nat)
  | respond (status : Nat) (json : List (String × Json))
deriving Repr

/-- The operand `department || null`. -/
def orNull (v : Value) : Value := if v.truthy then v else .null

/-- The record built from the body, server.js lines 104-115. -/
def buildRecord (b : Body) : Record :=
  { name := b "name"
    last_name := b "lastName"
    email := b "email"
    department := orNull (b "department")
    category := b "category"
    message := b "message" }

/-- The `try` block of the contact handler, server.js lines 96-133: the
effects performed, and the exception thrown if any. -/
def contactTry (store : List Record → StoreReply) (req : Request) :
    List Effect × Option Exn :=
  if !req.errors.isEmpty then
    ([.respond 400 [("error", .str "Validation failed"), ("details", .errors req.errors)]], none)
  else
    let call := Effect.insert "contact_submissions" [buildRecord req.body]
    match store [buildRecord req.body] with
    | .rejected exn => ([call], some exn)
    | .resolved data error =>
      match error with
      | some e =>
        ([call, .consoleError "Supabase error:" (.store e),
          .respond 500 [("error", .str "Failed to submit contact form. Please try again later.")]],
         none)
      | none =>
        match data with
        | none => ([call], some (.typeError "data is null"))
        | some [] => ([call], some (.typeError "data[0] is undefined"))
        | some (row :: _) =>
          ([call, .consoleLog "Contact form submitted successfully:" row.id,
            .respond 201 [("success", .bool true),
              ("message", .str "Your message has been received. We will get back to you soon!"),
              ("submissionId", .num row.id)]],
           none)

/-- The contact handler, server.js lines 94-140: the `try` block followed by
the `catch` block when an exception was thrown. -/
def contactHandler (store : List Record → StoreReply) (req : Request) : List Effect :=
  match contactTry store req with
  | (trace, none) => trace
  | (trace, some exn) =>
    trace ++ [.consoleError "Server error:" exn,
      .respond 500 [("error", .str "An unexpected error occurred. Please try again later.")]]

/-- The route `POST /api/contact`: validation middlewares, then the handler. -/
def postContact (lib : Lib) (store : List Record → StoreReply) (b : Body) : List Effect :=
  contactHandler store (validate lib b)

/-- The `try` block of the submissions handler, server.js lines 145-161. -/
def submissionsTry (reply : StoreReply) : List Effect × Option Exn :=
  let call := Effect.select "contact_submissions" "*" "created_at" false
  match reply with
  | .rejected exn => ([call], some exn)
  | .resolved data error =>
    match error with
    | some e =>
      ([call, .consoleError "Supabase error:" (.store e),
        .respond 500 [("error", .str "Failed to fetch submissions")]], none)
    | none =>
      match data with
      | none => ([call], some (.typeError "data is null"))
      | some rows =>
        ([call, .respond 200 [("success", .bool true), ("count", .num rows.length),
          ("submissions", .rows rows)]], none)

/-- The route `GET /api/submissions`, server.js lines 143-168. -/
def getSubmissions (reply : StoreReply) : List Effect :=
  match submissionsTry reply with
  | (trace, none) => trace
  | (trace, some exn) =>
    trace ++ [.consoleError "Server error:" exn,
      .respond 500 [("error", .str "An unexpected error occurred")]]

/-! ## Observations on traces -/

/-- The responses sent, as pairs of status and JSON body. -/
def responses : List Effect → List (Nat × List (String × Json))
  | [] => []
  | .respond s j :: rest => (s, j) :: responses rest
  | _ :: rest => responses rest

/-- The row lists inserted into the store. -/
def inserts : List Effect → List (List Record)
  | [] => []
  | .insert _ rows :: rest => rows :: inserts rest
  | _ :: rest => inserts rest

/-- The number of calls made to the store (inserts and selects). -/
def storeCalls : List Effect → Nat
  | [] => 0
  | .insert _ _ :: rest => storeCalls rest + 1
  | .select _ _ _ _ :: rest => storeCalls rest + 1
  | _ :: rest => storeCalls rest

/-- Lookup of a key in a JSON object. -/
def field? (k : String) : List (String × Json) → Option Json
  | [] => none
  | (k', v) :: rest => if k' = k then some v else field? k rest

/-- The errors of a validated request that belong to one field. -/
def errorsOf (field : String) (req : Request) : List FieldError :=
  req.errors.filter (fun e => e.path = field)

/-- The trimmed text of a field of the body. -/
def trimmed (b : Body) (field : String) : String := Str.trim (b field).toText

/-- A sample library instance: the email check accepts the texts with an
at-sign, the normalizer keeps the text. -/
def sampleLib : Lib :=
  { isEmail := fun s => s.data.contains '@'
    normalizeEmail := fun s => .str s }

/-- The body of the scenario: name Jo, lastName Do, email jo@x.com,
category feedback, message 1234567890. -/
def scenarioBody : Body := fun k =>
  if k = "name" then .str "Jo"
  else if k = "lastName" then .str "Do"
  else if k = "email" then .str "jo@x.com"
  else if k = "category" then .str "feedback"
  else if k = "message" then .str "1234567890"
  else .undefined

/-- A stored row for the scenario body, with identifier 7. -/
def sampleRow : Row :=
  { id := 7
    created_at := "2024-01-01T00:00:00Z"
    fields :=
      { name := .str "Jo", last_name := .str "Do", email := .str "jo@x.com",
        department := .null, category := .str "feedback", message := .str "1234567890" } }

/-- A store that accepts every insert and returns the sample row. -/
def acceptingStore : List Record → StoreReply :=
  fun _ => .resolved (some [sampleRow]) none

/-- A store that reports an error on every insert. -/
def failingStore : List Record → StoreReply :=
  fun _ => .resolved none (some ⟨"23505", "duplicate key value"⟩)

/-- A store that reports no error and returns no row. -/
def silentStore : List Record → StoreReply :=
  fun _ => .resolved (some []) none

/-- The text made of the letter a followed by the variation selector
U+FE0F: two characters, one of them a selector. -/
def selectorName : String := String.mk [Char.ofNat 97, Char.ofNat 65039]

/-- A text of 256 characters: 254 letters d, the heart U+2764 and the
variation selector U+FE0F. -/
def longDepartment : String :=
  String.mk (List.replicate 254 (Char.ofNat 100) ++ [Char.ofNat 10084, Char.ofNat 65039])

/-- The scenario body with the empty array as name. -/
def emptyArrayNameBody : Body := scenarioBody.set "name" (.arr [])

/-- The scenario body with the name `selectorName`. -/
def selectorNameBody : Body := scenarioBody.set "name" (.str selectorName)

/-- The scenario body with the empty array as category. -/
def emptyArrayCategoryBody : Body := scenarioBody.set "category" (.arr [])

/-- The scenario body with the array of urgent and x as category. -/
def twoCategoriesBody : Body := scenarioBody.set "category" (.arr [.str "urgent", .str "x"])

/-- The scenario body with department `false`. -/
def falseDepartmentBody : Body := scenarioBody.set "department" (.bool false)

/-- The scenario body with the department `longDepartment`. -/
def longDepartmentBody : Body := scenarioBody.set "department" (.str longDepartment)

/-- A field that is absent, null, or a text made of whitespace only (the
empty text included). -/
def isBlank : Value → Bool
  | .undefined => true
  | .null => true
  | .str s => s.data.all Str.isSpace
  | _ => false

/-! ## The rule table of the specification -/

/-- A rule of the specification: a pure predicate on the text of the field
and the message reported when it does not hold. -/
structure Rule where
  ok : String → Bool
  msg : String

/-- The violations of a list of rules at the items of a field, in rule
order, and for one rule in item order: every rule is evaluated at every item,
whatever the outcome of the others. -/
def violations (path : String) (vs : List Value) : List Rule → List FieldError
  | [] => []
  | r :: rest =>
    (vs.filter (fun v => !r.ok v.toText)).map (fun v => ⟨v, r.msg, path, "body"⟩) ++
      violations path vs rest

/-- The items of a field after trimming: the trimmed text of the value, or of
each element of an array. -/
def trimmedElements (v : Value) : List Value :=
  v.elements.map (fun e => .str (Str.trim e.toText))

/-- The value of a field after the `trim` sanitizer. -/
def trimValue (v : Value) : Value :=
  v.mapElements (fun e => .str (Str.trim e.toText))

/-- The rules of a required text field with length bounds. -/
def lengthRules (required bounds : String) (min max : Nat) : List Rule :=
  [⟨fun s => !Str.isEmpty s, required⟩, ⟨Str.isLength (some min) (some max), bounds⟩]

/-- The violations of the name field. -/
def nameViolations (b : Body) : List FieldError :=
  violations "name" (trimmedElements (b "name"))
    (lengthRules "Name is required" "Name must be between 2 and 255 characters" 2 255)

/-- The violations of the lastName field. -/
def lastNameViolations (b : Body) : List FieldError :=
  violations "lastName" (trimmedElements (b "lastName"))
    (lengthRules "Last name is required" "Last name must be between 2 and 255 characters" 2 255)

/-- The violations of the email field. -/
def emailViolations (lib : Lib) (b : Body) : List FieldError :=
  violations "email" (trimmedElements (b "email"))
    [⟨fun s => !Str.isEmpty s, "Email is required"⟩,
     ⟨lib.isEmail, "Must be a valid email address"⟩]

/-- The violations of the department field: none when the field is falsy. -/
def departmentViolations (b : Body) : List FieldError :=
  if (b "department").truthy then
    violations "department" (trimmedElements (b "department"))
      [⟨Str.isLength none (some 255), "Department must be less than 255 characters"⟩]
  else []

/-- The violations of the category field. -/
def categoryViolations (b : Body) : List FieldError :=
  violations "category" (trimmedElements (b "category"))
    [⟨fun s => !Str.isEmpty s, "Category is required"⟩,
     ⟨Str.isIn ["feedback", "suggestion", "problem"],
      "Category must be one of: feedback, suggestion, problem"⟩]

/-- The violations of the message field. -/
def messageViolations (b : Body) : List FieldError :=
  violations "message" (trimmedElements (b "message"))
    (lengthRules "Message is required" "Message must be between 10 and 5000 characters" 10 5000)

/-- The details list of the specification: the violations of each field,
concatenated in the order name, lastName, email, department, category,
message. -/
def specDetails (lib : Lib) (b : Body) : List FieldError :=
  nameViolations b ++ lastNameViolations b ++ emailViolations lib b ++
    departmentViolations b ++ categoryViolations b ++ messageViolations b

/-- The record of the amended claim C5, for a body whose six fields are not
arrays: name, last_name, category and message trimmed; email trimmed and
normalized; department null when it is falsy (absent, null, false, zero or the
empty text) or trims to the empty text, and trimmed otherwise. -/
def normalizedRecord (lib : Lib) (b : Body) : Record :=
  { name := .str (trimmed b "name")
    last_name := .str (trimmed b "lastName")
    email := lib.normalizeEmail (trimmed b "email")
    department :=
      if (b "department").truthy && !Str.isEmpty (trimmed b "department") then
        .str (trimmed b "department")
      else .null
    category := .str (trimmed b "category")
    message := .str (trimmed b "message") }

/-- The six fields of the body the contact route reads. -/
def contactFields : List String :=
  ["name", "lastName", "email", "department", "category", "message"]

/-- The kind of failure of a store reply: `some false` for a reported error,
`some true` for a thrown exception, `none` when the reply is not a failure. -/
def failureKind : StoreReply → Option Bool
  | .resolved _ (some _) => some false
  | .rejected _ => some true
  | .resolved _ none => none

/-- The body of the 500 response of the contact route, by kind of failure. -/
def contactFailureBody (thrown : Bool) : List (String × Json) :=
  [("error", .str (if thrown then "An unexpected error occurred. Please try again later."
    else "Failed to submit contact form. Please try again later."))]

/-- The body of the 500 response of the submissions route, by kind of failure. -/
def submissionsFailureBody (thrown : Bool) : List (String × Json) :=
  [("error", .str (if thrown then "An unexpected error occurred"
    else "Failed to fetch submissions"))]

/-- The body of the 201 response for a stored row identifier. -/
def createdBody (id : Nat) : List (String × Json) :=
  [("success", .bool true),
   ("message", .str "Your message has been received. We will get back to you soon!"),
   ("submissionId", .num id)]

/-- The body after the sanitizers of the six chains have run. -/
def sanitized (lib : Lib) (b : Body) : Body := fun k =>
  if k = "name" then trimValue (b "name")
  else if k = "lastName" then trimValue (b "lastName")
  else if k = "email" then
    (trimValue (b "email")).mapElements (fun e => lib.normalizeEmail e.toText)
  else if k = "department" then
    (if (b "department").truthy then trimValue (b "department") else b "department")
  else if k = "category" then trimValue (b "category")
  else if k = "message" then trimValue (b "message")
  else b k

/-! ## Running the chains -/

theorem toText_str (s : String) : (Value.str s).toText = s := rfl

theorem truthy_str (s : String) : (Value.str s).truthy = !(s.length == 0) := rfl

theorem elements_of_not_array (v : Value) (h : v.isArray = false) : v.elements = [v] := by
  cases v <;> first | rfl | simp [Value.isArray] at h

theorem mapElements_of_not_array (f : Value → Value) (v : Value) (h : v.isArray = false) :
    v.mapElements f = f v := by
  cases v <;> first | rfl | simp [Value.isArray] at h

theorem trimValue_of_not_array (v : Value) (h : v.isArray = false) :
    trimValue v = .str (Str.trim v.toText) :=
  mapElements_of_not_array _ v h

theorem trimmedElements_of_not_array (v : Value) (h : v.isArray = false) :
    trimmedElements v = [.str (Str.trim v.toText)] := by
  simp [trimmedElements, elements_of_not_array v h]

theorem elements_trimValue (v : Value) : (trimValue v).elements = trimmedElements v := by
  cases v <;> rfl

theorem truthy_of_array (v : Value) (h : v.isArray = true) : v.truthy = true := by
  cases v <;> first | rfl | simp [Value.isArray] at h

theorem isArray_trimValue (v : Value) : (trimValue v).isArray = v.isArray := by
  cases v <;> rfl

theorem Body.set_same (b : Body) (f : String) (v : Value) : b.set f v f = v := by
  simp [Body.set]

theorem Body.set_other (b : Body) (f k : String) (v : Value) (h : k ≠ f) :
    b.set f v k = b k := by
  simp [Body.set, h]

theorem Body.set_self (b : Body) (f : String) : b.set f (b f) = b := by
  funext k
  by_cases h : k = f <;> simp [Body.set, h]

theorem length_eq_zero_iff (s : String) : s.length = 0 ↔ s = "" := by
  constructor
  · intro h
    apply String.ext
    exact List.length_eq_zero.mp h
  · intro h
    rw [h]
    rfl

theorem measure_le_length (s : String) : Str.measure s ≤ s.length := by
  unfold Str.measure
  omega

theorem runItem_sanitizer {st : List Item} (f : String) (req : Request) (g : String → Value) :
    runItem ⟨f, false, st⟩ req (.sanitizer g) =
      ⟨req.body.set f ((req.body f).mapElements (fun e => g e.toText)), req.errors⟩ := by
  simp [runItem]

theorem runItem_validator {st : List Item} (f : String) (req : Request) (neg : Bool)
    (check : String → Bool) (m : String) :
    runItem ⟨f, false, st⟩ req (.validator neg check (some m)) =
      ⟨req.body, req.errors ++
        violations f (req.body f).elements
          [⟨fun s => if neg then !check s else check s, m⟩]⟩ := by
  cases neg <;> simp [runItem, violations]

theorem violations_append (path : String) (vs : List Value) (r1 r2 : List Rule) :
    violations path vs (r1 ++ r2) = violations path vs r1 ++ violations path vs r2 := by
  induction r1 with
  | nil => rfl
  | cons r rest ih => simp [violations, ih]

theorem runChain_required (req : Request) (f m1 m2 : String) (check : String → Bool) :
    runChain req ⟨f, false, [.sanitizer (fun s => .str (Str.trim s)),
        .validator true Str.isEmpty (some m1), .validator false check (some m2)]⟩ =
      ⟨req.body.set f (trimValue (req.body f)),
       req.errors ++ violations f (trimmedElements (req.body f))
         [⟨fun s => !Str.isEmpty s, m1⟩, ⟨check, m2⟩]⟩ := by
  simp only [runChain, List.foldl, runItem_sanitizer, runItem_validator, Body.set_same,
    List.append_assoc, ← violations_append]
  simp [trimValue, ← elements_trimValue]

theorem runChain_email (lib : Lib) (req : Request) (f m1 m2 : String) :
    runChain req ⟨f, false, [.sanitizer (fun s => .str (Str.trim s)),
        .validator true Str.isEmpty (some m1), .validator false lib.isEmail (some m2),
        .sanitizer lib.normalizeEmail]⟩ =
      ⟨(req.body.set f (trimValue (req.body f))).set f
          ((trimValue (req.body f)).mapElements (fun e => lib.normalizeEmail e.toText)),
       req.errors ++ violations f (trimmedElements (req.body f))
         [⟨fun s => !Str.isEmpty s, m1⟩, ⟨lib.isEmail, m2⟩]⟩ := by
  simp only [runChain, List.foldl, runItem_sanitizer, runItem_validator, Body.set_same,
    List.append_assoc, ← violations_append]
  simp [trimValue, ← elements_trimValue]

theorem runItem_skip {st : List Item} (f : String) (req : Request) (it : Item)
    (h : (req.body f).truthy = false) : runItem ⟨f, true, st⟩ req it = req := by
  simp [runItem, h]

theorem runItem_run {st : List Item} (f : String) (req : Request) (it : Item)
    (h : (req.body f).truthy = true) :
    runItem ⟨f, true, st⟩ req it = runItem ⟨f, false, st⟩ req it := by
  simp [runItem, h]

theorem trimmedElements_of_falsy_trimValue (v : Value) (h : (trimValue v).truthy = false) :
    trimmedElements v = [.str ""] := by
  have hna : v.isArray = false := by
    cases hv : v.isArray
    · rfl
    · have := truthy_of_array (trimValue v) (by rw [isArray_trimValue, hv])
      rw [this] at h
      exact absurd h (by decide)
  rw [trimmedElements_of_not_array v hna]
  rw [trimValue_of_not_array v hna, truthy_str] at h
  have h0 : (Str.trim v.toText).length = 0 := by simpa using h
  rw [(length_eq_zero_iff _).mp h0]

theorem runChain_optional (req : Request) (f m : String) (check : String → Bool)
    (hc : check "" = true) :
    runChain req ⟨f, true, [.sanitizer (fun s => .str (Str.trim s)),
        .validator false check (some m)]⟩ =
      ⟨req.body.set f
         (if (req.body f).truthy then trimValue (req.body f) else req.body f),
       req.errors ++ (if (req.body f).truthy then
         violations f (trimmedElements (req.body f)) [⟨check, m⟩] else [])⟩ := by
  by_cases ht : (req.body f).truthy = true
  · simp only [runChain, List.foldl, runItem_run f req _ ht, runItem_sanitizer, ht, if_true]
    have hb : (req.body f).mapElements (fun e => Value.str (Str.trim e.toText)) =
        trimValue (req.body f) := rfl
    rw [hb]
    by_cases he : (trimValue (req.body f)).truthy = true
    · rw [runItem_run, runItem_validator]
      · simp [Body.set_same, elements_trimValue]
      · simpa [Body.set_same] using he
    · simp only [Bool.not_eq_true] at he
      rw [runItem_skip]
      · simp [trimmedElements_of_falsy_trimValue _ he, violations, toText_str, hc]
      · simpa [Body.set_same] using he
  · simp only [Bool.not_eq_true] at ht
    simp [runChain, List.foldl, runItem_skip f req _ ht, ht, Body.set_self]

theorem contactChains_eq (lib : Lib) :
    contactChains lib =
      [⟨"name", false, [.sanitizer (fun s => .str (Str.trim s)),
          .validator true Str.isEmpty (some "Name is required"),
          .validator false (Str.isLength (some 2) (some 255))
            (some "Name must be between 2 and 255 characters")]⟩,
       ⟨"lastName", false, [.sanitizer (fun s => .str (Str.trim s)),
          .validator true Str.isEmpty (some "Last name is required"),
          .validator false (Str.isLength (some 2) (some 255))
            (some "Last name must be between 2 and 255 characters")]⟩,
       ⟨"email", false, [.sanitizer (fun s => .str (Str.trim s)),
          .validator true Str.isEmpty (some "Email is required"),
          .validator false lib.isEmail (some "Must be a valid email address"),
          .sanitizer lib.normalizeEmail]⟩,
       ⟨"department", true, [.sanitizer (fun s => .str (Str.trim s)),
          .validator false (Str.isLength none (some 255))
            (some "Department must be less than 255 characters")]⟩,
       ⟨"category", false, [.sanitizer (fun s => .str (Str.trim s)),
          .validator true Str.isEmpty (some "Category is required"),
          .validator false (Str.isIn ["feedback", "suggestion", "problem"])
            (some "Category must be one of: feedback, suggestion, problem")]⟩,
       ⟨"message", false, [.sanitizer (fun s => .str (Str.trim s)),
          .validator true Str.isEmpty (some "Message is required"),
          .validator false (Str.isLength (some 10) (some 5000))
            (some "Message must be between 10 and 5000 characters")]⟩] := rfl

theorem validate_errors (lib : Lib) (b : Body) :
    (validate lib b).errors = specDetails lib b := by
  have hc : Str.isLength none (some 255) "" = true := by decide
  unfold validate runChains
  rw [contactChains_eq]
  simp only [List.foldl, runChain_required, runChain_email, runChain_optional _ _ _ _ hc]
  simp [specDetails, nameViolations, lastNameViolations, emailViolations,
    departmentViolations, categoryViolations, messageViolations, lengthRules,
    Body.set]

theorem validate_body (lib : Lib) (b : Body) (k : String) :
    (validate lib b).body k = sanitized lib b k := by
  have hc : Str.isLength none (some 255) "" = true := by decide
  unfold validate runChains
  rw [contactChains_eq]
  simp only [List.foldl, runChain_required, runChain_email, runChain_optional _ _ _ _ hc]
  by_cases h1 : k = "name"
  · subst h1
    simp [sanitized, Body.set_same, Body.set_other]
  by_cases h2 : k = "lastName"
  · subst h2
    simp [sanitized, Body.set_same, Body.set_other]
  by_cases h3 : k = "email"
  · subst h3
    simp [sanitized, Body.set_same, Body.set_other]
  by_cases h4 : k = "department"
  · subst h4
    simp [sanitized, Body.set_same, Body.set_other]
  by_cases h5 : k = "category"
  · subst h5
    simp [sanitized, Body.set_same, Body.set_other]
  by_cases h6 : k = "message"
  · subst h6
    simp [sanitized, Body.set_same, Body.set_other]
  simp [sanitized, Body.set_other, h1, h2, h3, h4, h5, h6]

/-! ## Errors of a single field -/

theorem violations_path (path : String) (vs : List Value) (rules : List Rule) :
    ∀ e ∈ violations path vs rules, e.path = path := by
  induction rules with
  | nil => simp [violations]
  | cons r rest ih =>
    intro e he
    simp only [violations, List.mem_append, List.mem_map, List.mem_filter] at he
    rcases he with ⟨v, _, hv⟩ | he
    · rw [← hv]
    · exact ih e he

theorem filter_violations_same (path : String) (vs : List Value) (rules : List Rule) :
    (violations path vs rules).filter (fun e => e.path = path) = violations path vs rules := by
  apply List.filter_eq_self.mpr
  intro e he
  simp [violations_path path vs rules e he]

theorem filter_violations_other (path f : String) (vs : List Value) (rules : List Rule)
    (h : path ≠ f) :
    (violations path vs rules).filter (fun e => e.path = f) = [] := by
  apply List.filter_eq_nil_iff.mpr
  intro e he
  simp [violations_path path vs rules e he, h]

theorem errorsOf_name (lib : Lib) (b : Body) :
    errorsOf "name" (validate lib b) = nameViolations b := by
  by_cases ht : (b "department").truthy = true <;>
  simp [errorsOf, validate_errors, specDetails, nameViolations, lastNameViolations,
    emailViolations, departmentViolations, categoryViolations, messageViolations,
    List.filter_append, filter_violations_same, filter_violations_other, ht]

theorem errorsOf_lastName (lib : Lib) (b : Body) :
    errorsOf "lastName" (validate lib b) = lastNameViolations b := by
  by_cases ht : (b "department").truthy = true <;>
  simp [errorsOf, validate_errors, specDetails, nameViolations, lastNameViolations,
    emailViolations, departmentViolations, categoryViolations, messageViolations,
    List.filter_append, filter_violations_same, filter_violations_other, ht]

theorem errorsOf_email (lib : Lib) (b : Body) :
    errorsOf "email" (validate lib b) = emailViolations lib b := by
  by_cases ht : (b "department").truthy = true <;>
  simp [errorsOf, validate_errors, specDetails, nameViolations, lastNameViolations,
    emailViolations, departmentViolations, categoryViolations, messageViolations,
    List.filter_append, filter_violations_same, filter_violations_other, ht]

theorem errorsOf_department (lib : Lib) (b : Body) :
    errorsOf "department" (validate lib b) = departmentViolations b := by
  by_cases ht : (b "department").truthy = true <;>
  simp [errorsOf, validate_errors, specDetails, nameViolations, lastNameViolations,
    emailViolations, departmentViolations, categoryViolations, messageViolations,
    List.filter_append, filter_violations_same, filter_violations_other, ht]

theorem errorsOf_category (lib : Lib) (b : Body) :
    errorsOf "category" (validate lib b) = categoryViolations b := by
  by_cases ht : (b "department").truthy = true <;>
  simp [errorsOf, validate_errors, specDetails, nameViolations, lastNameViolations,
    emailViolations, departmentViolations, categoryViolations, messageViolations,
    List.filter_append, filter_violations_same, filter_violations_other, ht]

theorem errorsOf_message (lib : Lib) (b : Body) :
    errorsOf "message" (validate lib b) = messageViolations b := by
  by_cases ht : (b "department").truthy = true <;>
  simp [errorsOf, validate_errors, specDetails, nameViolations, lastNameViolations,
    emailViolations, departmentViolations, categoryViolations, messageViolations,
    List.filter_append, filter_violations_same, filter_violations_other, ht]

theorem lengthRules_nil_iff (path m1 m2 t : String) (lo hi : Nat) (hlo : 0 < lo) :
    violations path [.str t] (lengthRules m1 m2 lo hi) = [] ↔
      lo ≤ Str.measure t ∧ Str.measure t ≤ hi := by
  have hle := measure_le_length t
  by_cases h1 : t.length = 0 <;> by_cases h2 : lo ≤ Str.measure t <;>
    by_cases h3 : Str.measure t ≤ hi <;>
    (simp [violations, lengthRules, Str.isEmpty, Str.isLength, toText_str, h1, h2, h3]
     all_goals omega)

/-! ## Trimming -/

theorem dropWhile_nil_iff (cs : List Char) :
    cs.dropWhile Str.isSpace = [] ↔ cs.all Str.isSpace = true := by
  simp [List.dropWhile_eq_nil_iff]

theorem dropWhile_reverse_dropWhile_nil (cs : List Char)
    (h : ((cs.dropWhile Str.isSpace).reverse.dropWhile Str.isSpace) = []) :
    cs.dropWhile Str.isSpace = [] := by
  cases hd : cs.dropWhile Str.isSpace with
  | nil => rfl
  | cons c rest =>
    have hc : Str.isSpace c = false := by
      have := List.head_dropWhile_not Str.isSpace cs (by simp [hd])
      simpa [hd] using this
    rw [hd] at h
    have hall := (dropWhile_nil_iff _).mp h
    simp only [List.all_eq_true, List.mem_reverse] at hall
    have := hall c (by simp)
    simp [hc] at this

theorem trim_eq_empty_iff (s : String) :
    Str.trim s = "" ↔ s.data.all Str.isSpace = true := by
  constructor
  · intro h
    have h1 : Str.rtrim (Str.ltrim s.data) = [] := by
      have := congrArg String.data h
      simpa [Str.trim] using this
    have h2 : (s.data.dropWhile Str.isSpace).reverse.dropWhile Str.isSpace = [] := by
      simpa [Str.rtrim, Str.ltrim] using h1
    exact (dropWhile_nil_iff _).mp (dropWhile_reverse_dropWhile_nil _ h2)
  · intro h
    have h1 : s.data.dropWhile Str.isSpace = [] := (dropWhile_nil_iff _).mpr h
    apply String.ext
    simp [Str.trim, Str.rtrim, Str.ltrim, h1]

theorem trimmed_of_blank (b : Body) (f : String) (h : isBlank (b f) = true) :
    trimmed b f = "" := by
  unfold trimmed
  cases hv : b f with
  | undefined => decide
  | null => decide
  | str s =>
    rw [hv] at h
    exact (trim_eq_empty_iff s).mpr h
  | bool x => simp [hv, isBlank] at h
  | num t => simp [hv, isBlank] at h
  | arr es => simp [hv, isBlank] at h
  | obj fs => simp [hv, isBlank] at h

theorem not_array_of_blank (v : Value) (h : isBlank v = true) : v.isArray = false := by
  cases v <;> first | rfl | simp [isBlank] at h

/-! ## The handlers, case by case -/

theorem mem_of_mem_errorsOf (f : String) (req : Request) (e : FieldError)
    (h : e ∈ errorsOf f req) : e ∈ req.errors ∧ e.path = f := by
  simpa [errorsOf] using h

theorem postContact_invalid (lib : Lib) (store : List Record → StoreReply) (b : Body)
    (h : (validate lib b).errors ≠ []) :
    postContact lib store b =
      [.respond 400 [("error", .str "Validation failed"),
        ("details", .errors (validate lib b).errors)]] := by
  simp [postContact, contactHandler, contactTry, h]

theorem required_violations_ne_nil (path m1 m2 : String) (check : String → Bool) :
    violations path [.str ""] [⟨fun s => !Str.isEmpty s, m1⟩, ⟨check, m2⟩] ≠ [] := by
  have h : Str.isEmpty "" = true := by decide
  simp [violations, toText_str, h]

theorem trimmedElements_of_blank (b : Body) (f : String) (h : isBlank (b f) = true) :
    trimmedElements (b f) = [.str ""] := by
  rw [trimmedElements_of_not_array _ (not_array_of_blank _ h)]
  have := trimmed_of_blank b f h
  unfold trimmed at this
  rw [this]

theorem blank_required_has_error (lib : Lib) (b : Body) (f : String)
    (hf : f ∈ ["name", "lastName", "email", "category", "message"])
    (hb : isBlank (b f) = true) : errorsOf f (validate lib b) ≠ [] := by
  have ht := trimmedElements_of_blank b f hb
  simp only [List.mem_cons, List.mem_singleton, List.not_mem_nil, or_false] at hf
  rcases hf with h | h | h | h | h <;> subst h
  · rw [errorsOf_name, nameViolations, ht]
    exact required_violations_ne_nil _ _ _ _
  · rw [errorsOf_lastName, lastNameViolations, ht]
    exact required_violations_ne_nil _ _ _ _
  · rw [errorsOf_email, emailViolations, ht]
    exact required_violations_ne_nil _ _ _ _
  · rw [errorsOf_category, categoryViolations, ht]
    exact required_violations_ne_nil _ _ _ _
  · rw [errorsOf_message, messageViolations, ht]
    exact required_violations_ne_nil _ _ _ _

theorem contactHandler_created (store : List Record → StoreReply) (req : Request)
    (row : Row) (rest : List Row) (h : req.errors = [])
    (hs : store [buildRecord req.body] = .resolved (some (row :: rest)) none) :
    responses (contactHandler store req) = [(201, createdBody row.id)] := by
  unfold contactHandler contactTry
  rw [h, hs]
  rfl

/-! ## Claims -/

/-- C1, as stated, fails at the scenario body with the empty array as name:
the name is empty, the route answers 201 and no entry of the details list has
the path name. -/
theorem missing_required_field_counterexample :
    emptyArrayNameBody "name" = .arr [] ∧
      responses (postContact sampleLib acceptingStore emptyArrayNameBody) =
        [(201, createdBody 7)] ∧
      ∀ e ∈ (validate sampleLib emptyArrayNameBody).errors, e.path ≠ "name" := by
  have hv : (validate sampleLib emptyArrayNameBody).errors = [] := rfl
  refine ⟨rfl, ?_, ?_⟩
  · exact contactHandler_created acceptingStore (validate sampleLib emptyArrayNameBody)
      sampleRow [] hv rfl
  · rw [hv]
    simp

/-- C1, amended: when one of the required fields name, lastName, email,
category or message is absent, null, or a text that is empty or only
whitespace, the contact route sends the single response 400 with error
"Validation failed", and the details list has an entry whose path is that
field, whatever the other fields hold. -/
theorem missing_required_field_rejected (lib : Lib) (store : List Record → StoreReply)
    (b : Body) (f : String)
    (hf : f ∈ ["name", "lastName", "email", "category", "message"])
    (hb : isBlank (b f) = true) :
    responses (postContact lib store b) =
        [(400, [("error", .str "Validation failed"),
          ("details", .errors (validate lib b).errors)])] ∧
      ∃ e ∈ (validate lib b).errors, e.path = f := by
  have hne := blank_required_has_error lib b f hf hb
  obtain ⟨e, he⟩ := List.exists_mem_of_ne_nil _ hne
  have hmem := mem_of_mem_errorsOf f _ e he
  have hne2 : (validate lib b).errors ≠ [] := List.ne_nil_of_mem hmem.1
  refine ⟨?_, e, hmem.1, hmem.2⟩
  rw [postContact_invalid lib store b hne2]
  rfl

/-- Witness of C1: the scenario body with a whitespace-only name. -/
theorem missing_required_field_rejected_witness :
    "name" ∈ ["name", "lastName", "email", "category", "message"] ∧
      isBlank ((scenarioBody.set "name" (.str "  ")) "name") = true ∧
      responses (postContact sampleLib acceptingStore (scenarioBody.set "name" (.str "  "))) =
        [(400, [("error", .str "Validation failed"),
          ("details", .errors
            (validate sampleLib (scenarioBody.set "name" (.str "  "))).errors)])] ∧
      ∃ e ∈ (validate sampleLib (scenarioBody.set "name" (.str "  "))).errors,
        e.path = "name" :=
  ⟨by decide, by decide,
    missing_required_field_rejected sampleLib acceptingStore
      (scenarioBody.set "name" (.str "  ")) "name" (by decide) (by decide)⟩

theorem errorsOf_lengthRules_iff (vs : List FieldError) (v : Value) (t m1 m2 path : String)
    (lo hi : Nat) (hlo : 0 < lo) (hna : v.isArray = false) (ht : Str.trim v.toText = t)
    (hvs : vs = violations path (trimmedElements v) (lengthRules m1 m2 lo hi)) :
    vs = [] ↔ lo ≤ Str.measure t ∧ Str.measure t ≤ hi := by
  rw [hvs, trimmedElements_of_not_array v hna, ht]
  exact lengthRules_nil_iff _ _ _ _ _ _ hlo

/-- C2, as stated, fails at two bodies.  The name made of the letter a and
the selector U+FE0F has trimmed length 2 and gets the length error; the empty
array as name has the empty trimmed text and gets no error. -/
theorem length_rules_counterexample :
    (trimmed selectorNameBody "name").length = 2 ∧
      errorsOf "name" (validate sampleLib selectorNameBody) =
        [⟨.str selectorName, "Name must be between 2 and 255 characters", "name", "body"⟩] ∧
      (trimmed emptyArrayNameBody "name").length = 0 ∧
      errorsOf "name" (validate sampleLib emptyArrayNameBody) = [] :=
  ⟨by decide, rfl, by decide, rfl⟩

/-- C2, amended: for a name that is not an array, and likewise for lastName,
the validator reports no error exactly when the trimmed value has between 2
and 255 characters, the variation selectors U+FE0E and U+FE0F not counted; for
a message that is not an array, exactly when its trimmed value has between 10
and 5000 characters so counted.  A trimmed name of counted length 1 is
rejected and of counted length 2 accepted, a trimmed message of counted
length 9 is rejected and of counted length 10 accepted. -/
theorem length_rules_after_trim (lib : Lib) (b : Body) :
    ((b "name").isArray = false →
        (errorsOf "name" (validate lib b) = [] ↔
          2 ≤ Str.measure (trimmed b "name") ∧ Str.measure (trimmed b "name") ≤ 255)) ∧
      ((b "lastName").isArray = false →
        (errorsOf "lastName" (validate lib b) = [] ↔
          2 ≤ Str.measure (trimmed b "lastName") ∧
            Str.measure (trimmed b "lastName") ≤ 255)) ∧
      ((b "message").isArray = false →
        (errorsOf "message" (validate lib b) = [] ↔
          10 ≤ Str.measure (trimmed b "message") ∧
            Str.measure (trimmed b "message") ≤ 5000)) ∧
      ((b "name").isArray = false → Str.measure (trimmed b "name") = 1 →
        errorsOf "name" (validate lib b) ≠ []) ∧
      ((b "name").isArray = false → Str.measure (trimmed b "name") = 2 →
        errorsOf "name" (validate lib b) = []) ∧
      ((b "message").isArray = false → Str.measure (trimmed b "message") = 9 →
        errorsOf "message" (validate lib b) ≠ []) ∧
      ((b "message").isArray = false → Str.measure (trimmed b "message") = 10 →
        errorsOf "message" (validate lib b) = []) := by
  have hn : (b "name").isArray = false →
      (errorsOf "name" (validate lib b) = [] ↔
        2 ≤ Str.measure (trimmed b "name") ∧ Str.measure (trimmed b "name") ≤ 255) :=
    fun hna => errorsOf_lengthRules_iff _ (b "name") _ _ _ "name" 2 255 (by decide) hna rfl
      (errorsOf_name lib b)
  have hl : (b "lastName").isArray = false →
      (errorsOf "lastName" (validate lib b) = [] ↔
        2 ≤ Str.measure (trimmed b "lastName") ∧
          Str.measure (trimmed b "lastName") ≤ 255) :=
    fun hna => errorsOf_lengthRules_iff _ (b "lastName") _ _ _ "lastName" 2 255 (by decide)
      hna rfl (errorsOf_lastName lib b)
  have hm : (b "message").isArray = false →
      (errorsOf "message" (validate lib b) = [] ↔
        10 ≤ Str.measure (trimmed b "message") ∧
          Str.measure (trimmed b "message") ≤ 5000) :=
    fun hna => errorsOf_lengthRules_iff _ (b "message") _ _ _ "message" 10 5000 (by decide)
      hna rfl (errorsOf_message lib b)
  refine ⟨hn, hl, hm, ?_, ?_, ?_, ?_⟩
  · intro hna h1 h
    have := (hn hna).mp h
    omega
  · intro hna h2
    exact (hn hna).mpr (by omega)
  · intro hna h9 h
    have := (hm hna).mp h
    omega
  · intro hna h10
    exact (hm hna).mpr (by omega)

/-- Witness of C2: the name Jo of the scenario body has counted length 2. -/
theorem length_rules_after_trim_witness :
    (scenarioBody "name").isArray = false ∧
      Str.measure (trimmed scenarioBody "name") = 2 ∧
      errorsOf "name" (validate sampleLib scenarioBody) = [] :=
  ⟨rfl, by decide,
    (length_rules_after_trim sampleLib scenarioBody).2.2.2.2.1 rfl (by decide)⟩

/-- C3, as stated, fails at two bodies.  With the empty array as category
the trimmed category is the empty text, not one of the three values, and no
error is reported; with the array of urgent and x the trimmed category is
urgent and two category errors are reported. -/
theorem category_rule_counterexample :
    trimmed emptyArrayCategoryBody "category" ∉ ["feedback", "suggestion", "problem"] ∧
      errorsOf "category" (validate sampleLib emptyArrayCategoryBody) = [] ∧
      trimmed twoCategoriesBody "category" = "urgent" ∧
      errorsOf "category" (validate sampleLib twoCategoriesBody) =
        [⟨.str "urgent", "Category must be one of: feedback, suggestion, problem",
            "category", "body"⟩,
         ⟨.str "x", "Category must be one of: feedback, suggestion, problem",
            "category", "body"⟩] :=
  ⟨by decide, rfl, by decide, rfl⟩

/-- C3, amended: for a category that is not an array, the validator reports no
error for category exactly when the trimmed category is one of feedback,
suggestion, problem; a non-empty trimmed category outside that set, such as
urgent, gets exactly one category error, with the message that names the
three valid values. -/
theorem category_rule (lib : Lib) (b : Body) (hna : (b "category").isArray = false) :
    (errorsOf "category" (validate lib b) = [] ↔
        trimmed b "category" ∈ ["feedback", "suggestion", "problem"]) ∧
      (trimmed b "category" ≠ "" →
        trimmed b "category" ∉ ["feedback", "suggestion", "problem"] →
        errorsOf "category" (validate lib b) =
          [⟨.str (trimmed b "category"),
            "Category must be one of: feedback, suggestion, problem", "category", "body"⟩]) ∧
      (b "category" = .str "urgent" →
        errorsOf "category" (validate lib b) =
          [⟨.str "urgent", "Category must be one of: feedback, suggestion, problem",
            "category", "body"⟩]) := by
  have key : ∀ t : String,
      (violations "category" [.str t]
          [⟨fun s => !Str.isEmpty s, "Category is required"⟩,
           ⟨Str.isIn ["feedback", "suggestion", "problem"],
            "Category must be one of: feedback, suggestion, problem"⟩] = [] ↔
        t ∈ ["feedback", "suggestion", "problem"]) ∧
      (t ≠ "" → t ∉ ["feedback", "suggestion", "problem"] →
        violations "category" [.str t]
          [⟨fun s => !Str.isEmpty s, "Category is required"⟩,
           ⟨Str.isIn ["feedback", "suggestion", "problem"],
            "Category must be one of: feedback, suggestion, problem"⟩] =
          [⟨.str t, "Category must be one of: feedback, suggestion, problem",
            "category", "body"⟩]) := by
    intro t
    have he : Str.isEmpty t = true ↔ t = "" := by
      simp [Str.isEmpty, length_eq_zero_iff]
    by_cases h0 : t = ""
    · subst h0
      constructor
      · simp [violations, toText_str, Str.isEmpty, Str.isIn]
      · intro h
        exact absurd rfl h
    · have he2 : Str.isEmpty t = false := by
        cases h : Str.isEmpty t
        · rfl
        · exact absurd (he.mp h) h0
      by_cases hin : t ∈ ["feedback", "suggestion", "problem"]
      · have : Str.isIn ["feedback", "suggestion", "problem"] t = true := by
          simpa [Str.isIn] using hin
        simp [violations, toText_str, he2, this, hin]
      · have : Str.isIn ["feedback", "suggestion", "problem"] t = false := by
          simpa [Str.isIn] using hin
        simp [violations, toText_str, he2, this, hin]
  have hte : trimmedElements (b "category") = [.str (trimmed b "category")] :=
    trimmedElements_of_not_array _ hna
  rw [errorsOf_category, categoryViolations, hte]
  refine ⟨(key _).1, (key _).2, ?_⟩
  intro hu
  have ht : trimmed b "category" = "urgent" := by
    unfold trimmed
    rw [hu]
    decide
  rw [ht]
  exact (key "urgent").2 (by decide) (by decide)

/-- Witness of C3: the scenario body with category urgent. -/
theorem category_rule_witness :
    ((scenarioBody.set "category" (.str "urgent")) "category").isArray = false ∧
      errorsOf "category" (validate sampleLib (scenarioBody.set "category" (.str "urgent"))) =
        [⟨.str "urgent", "Category must be one of: feedback, suggestion, problem",
          "category", "body"⟩] :=
  ⟨rfl, (category_rule sampleLib (scenarioBody.set "category" (.str "urgent")) rfl).2.2 rfl⟩

set_option maxRecDepth 20000 in
/-- C10, as stated, fails at the scenario body with a department of 254
letters d, the heart U+2764 and the selector U+FE0F: the department is
present, its trimmed value has 256 characters, and no error is reported. -/
theorem department_rule_counterexample :
    longDepartmentBody "department" = .str longDepartment ∧
      (trimmed longDepartmentBody "department").length = 256 ∧
      errorsOf "department" (validate sampleLib longDepartmentBody) = [] :=
  ⟨rfl, by decide, rfl⟩

/-- C10, amended: for a department that is not an array, the validator
reports an error for department exactly when department is present and its
trimmed value has more than 255 characters, the variation selectors U+FE0E
and U+FE0F not counted; an absent, empty or whitespace-only department
produces no error, and a department of trimmed counted length exactly 255 is
accepted. -/
theorem department_rule (lib : Lib) (b : Body) (hna : (b "department").isArray = false) :
    (errorsOf "department" (validate lib b) ≠ [] ↔
        b "department" ≠ .undefined ∧ 255 < Str.measure (trimmed b "department")) ∧
      (isBlank (b "department") = true → errorsOf "department" (validate lib b) = []) ∧
      (Str.measure (trimmed b "department") = 255 →
        errorsOf "department" (validate lib b) = []) := by
  have hv : ∀ t : String,
      (violations "department" [.str t]
        [⟨Str.isLength none (some 255), "Department must be less than 255 characters"⟩] ≠ []
        ↔ 255 < Str.measure t) := by
    intro t
    by_cases h : Str.measure t ≤ 255 <;>
    (simp [violations, toText_str, Str.isLength, h]
     all_goals omega)
  have htruthy : 255 < Str.measure (trimmed b "department") →
      (b "department").truthy = true := by
    intro h
    unfold trimmed at h
    cases hd : b "department" with
    | undefined => rw [hd] at h; revert h; decide
    | null => rw [hd] at h; revert h; decide
    | bool x => cases x <;> (rw [hd] at h; revert h; decide)
    | num t =>
      by_cases h0 : t = "0"
      · subst h0
        rw [hd] at h
        revert h
        decide
      · simp [Value.truthy, h0]
    | str s =>
      rw [hd, toText_str] at h
      by_cases h0 : s.length = 0
      · have : s = "" := (length_eq_zero_iff s).mp h0
        subst this
        revert h
        decide
      · simp [truthy_str, h0]
    | arr es => rfl
    | obj fs => rfl
  have hte : trimmedElements (b "department") = [.str (trimmed b "department")] :=
    trimmedElements_of_not_array _ hna
  have hiff : errorsOf "department" (validate lib b) ≠ [] ↔
      b "department" ≠ .undefined ∧ 255 < Str.measure (trimmed b "department") := by
    rw [errorsOf_department, departmentViolations, hte]
    constructor
    · intro h
      by_cases ht : (b "department").truthy = true
      · rw [if_pos ht] at h
        refine ⟨?_, (hv _).mp h⟩
        intro hu
        rw [hu] at ht
        exact absurd ht (by decide)
      · rw [if_neg ht] at h
        exact absurd rfl h
    · intro h
      rw [if_pos (htruthy h.2)]
      exact (hv _).mpr h.2
  refine ⟨hiff, ?_, ?_⟩
  · intro hb
    by_contra hne
    have := (hiff.mp hne).2
    rw [trimmed_of_blank b "department" hb] at this
    revert this
    decide
  · intro h255
    by_contra hne
    have := (hiff.mp hne).2
    omega

/-- Witness of C10: the scenario body has no department. -/
theorem department_rule_witness :
    (scenarioBody "department").isArray = false ∧
      isBlank (scenarioBody "department") = true ∧
      errorsOf "department" (validate sampleLib scenarioBody) = [] :=
  ⟨rfl, by decide, (department_rule sampleLib scenarioBody rfl).2.1 (by decide)⟩

/-- C9: the details list is the concatenation, in the order name, lastName,
email, department, category, message, of the violations of each field in rule
order.  It equals the rule table of the specification, and it equals the
concatenation of the errors each chain reports when run alone on the original
body, so no violation suppresses another; an empty name yields "Name is
required" followed by "Name must be between 2 and 255 characters". -/
theorem details_concatenate_violations (lib : Lib) (b : Body) :
    (validate lib b).errors = specDetails lib b ∧
      (validate lib b).errors =
        ((contactChains lib).map (fun c => (runChain ⟨b, []⟩ c).errors)).flatten ∧
      ((b "name").isArray = false → trimmed b "name" = "" →
        ∃ rest, (validate lib b).errors =
          ⟨.str "", "Name is required", "name", "body"⟩ ::
          ⟨.str "", "Name must be between 2 and 255 characters", "name", "body"⟩ :: rest) := by
  have hc : Str.isLength none (some 255) "" = true := by decide
  refine ⟨validate_errors lib b, ?_, ?_⟩
  · rw [validate_errors, contactChains_eq]
    simp only [List.map, List.flatten, runChain_required, runChain_email,
      runChain_optional _ _ _ _ hc, List.nil_append, List.append_nil]
    simp [specDetails, nameViolations, lastNameViolations, emailViolations,
      departmentViolations, categoryViolations, messageViolations, lengthRules]
  · intro hna h
    have hte : trimmedElements (b "name") = [.str ""] := by
      rw [trimmedElements_of_not_array _ hna]
      unfold trimmed at h
      rw [h]
    rw [validate_errors, specDetails, nameViolations, hte]
    refine ⟨lastNameViolations b ++ emailViolations lib b ++ departmentViolations b ++
      categoryViolations b ++ messageViolations b, ?_⟩
    have h1 : Str.isEmpty "" = true := by decide
    have h2 : Str.isLength (some 2) (some 255) "" = false := by decide
    simp [violations, lengthRules, toText_str, h1, h2]

/-- Witness of C9: the empty body. -/
theorem details_concatenate_violations_witness :
    ((fun _ => Value.undefined) "name").isArray = false ∧
      trimmed (fun _ => Value.undefined) "name" = "" ∧
      ∃ rest, (validate sampleLib (fun _ => Value.undefined)).errors =
        ⟨.str "", "Name is required", "name", "body"⟩ ::
        ⟨.str "", "Name must be between 2 and 255 characters", "name", "body"⟩ :: rest :=
  ⟨rfl, by decide,
    (details_concatenate_violations sampleLib (fun _ => Value.undefined)).2.2 rfl
      (by decide)⟩

/-- C4: when the validator reports at least one error, the contact route makes
no call to the store (no insert is issued) and its single response has status
400. -/
theorem invalid_body_no_store_call (lib : Lib) (store : List Record → StoreReply) (b : Body)
    (h : (validate lib b).errors ≠ []) :
    storeCalls (postContact lib store b) = 0 ∧
      inserts (postContact lib store b) = [] ∧
      responses (postContact lib store b) =
        [(400, [("error", .str "Validation failed"),
          ("details", .errors (validate lib b).errors)])] := by
  rw [postContact_invalid lib store b h]
  exact ⟨rfl, rfl, rfl⟩

/-- Witness of C4 at the empty body. -/
theorem invalid_body_no_store_call_witness :
    (validate sampleLib (fun _ => .undefined)).errors ≠ [] ∧
      storeCalls (postContact sampleLib (fun _ => .resolved none none)
        (fun _ => .undefined)) = 0 ∧
      inserts (postContact sampleLib (fun _ => .resolved none none)
        (fun _ => .undefined)) = [] ∧
      responses (postContact sampleLib (fun _ => .resolved none none)
        (fun _ => .undefined)) =
        [(400, [("error", .str "Validation failed"),
          ("details", .errors (validate sampleLib (fun _ => .undefined)).errors)])] :=
  ⟨fun h => absurd (congrArg List.length h) (by decide),
    invalid_body_no_store_call sampleLib _ _
      (fun h => absurd (congrArg List.length h) (by decide))⟩

theorem specDetails_congr (lib : Lib) (b b2 : Body)
    (h : ∀ f ∈ contactFields, b2 f = b f) : specDetails lib b2 = specDetails lib b := by
  have h1 := h "name" (by decide)
  have h2 := h "lastName" (by decide)
  have h3 := h "email" (by decide)
  have h4 := h "department" (by decide)
  have h5 := h "category" (by decide)
  have h6 := h "message" (by decide)
  simp only [specDetails, nameViolations, lastNameViolations, emailViolations,
    departmentViolations, categoryViolations, messageViolations, h1, h2, h3, h4, h5, h6]

theorem orNull_department (b : Body) (hna : (b "department").isArray = false) :
    orNull (if (b "department").truthy then trimValue (b "department") else b "department") =
      if (b "department").truthy && !Str.isEmpty (trimmed b "department") then
        .str (trimmed b "department")
      else .null := by
  by_cases ht : (b "department").truthy = true
  · rw [if_pos ht, trimValue_of_not_array _ hna]
    by_cases h0 : (Str.trim (b "department").toText).length = 0 <;>
      simp [orNull, truthy_str, ht, trimmed, Str.isEmpty, h0]
  · simp only [Bool.not_eq_true] at ht
    simp [orNull, ht]

theorem buildRecord_validate (lib : Lib) (b : Body)
    (hna : ∀ f ∈ contactFields, (b f).isArray = false) :
    buildRecord (validate lib b).body = normalizedRecord lib b := by
  have h1 := hna "name" (by decide)
  have h2 := hna "lastName" (by decide)
  have h3 := hna "email" (by decide)
  have h4 := hna "department" (by decide)
  have h5 := hna "category" (by decide)
  have h6 := hna "message" (by decide)
  have he : (Value.str (Str.trim (b "email").toText)).mapElements
      (fun e => lib.normalizeEmail e.toText) = lib.normalizeEmail (trimmed b "email") := rfl
  simp only [buildRecord, validate_body, normalizedRecord]
  simp [sanitized, orNull_department b h4, trimValue_of_not_array, h1, h2, h3, h5, h6, he,
    trimmed]

theorem normalizedRecord_congr (lib : Lib) (b b2 : Body)
    (h : ∀ f ∈ contactFields, b2 f = b f) : normalizedRecord lib b2 = normalizedRecord lib b := by
  have h1 := h "name" (by decide)
  have h2 := h "lastName" (by decide)
  have h3 := h "email" (by decide)
  have h4 := h "department" (by decide)
  have h5 := h "category" (by decide)
  have h6 := h "message" (by decide)
  simp only [normalizedRecord, trimmed, h1, h2, h3, h4, h5, h6]

theorem postContact_valid (lib : Lib) (store : List Record → StoreReply) (b : Body)
    (h : (validate lib b).errors = []) :
    inserts (postContact lib store b) = [[buildRecord (validate lib b).body]] ∧
      storeCalls (postContact lib store b) = 1 := by
  simp only [postContact, contactHandler, contactTry, h]
  cases hs : store [buildRecord (validate lib b).body] with
  | rejected exn => simp [inserts, storeCalls]
  | resolved data error =>
    cases error with
    | some e => simp [inserts, storeCalls]
    | none =>
      cases data with
      | none => simp [inserts, storeCalls]
      | some rows =>
        cases rows with
        | nil => simp [inserts, storeCalls]
        | cons row rest => simp [inserts, storeCalls]

/-- C5, as stated, fails at the scenario body with department `false`: the
department is neither absent, empty nor whitespace-only, its trimmed text is
"false", the body passes validation, and the one inserted record has the
department null. -/
theorem department_false_counterexample :
    falseDepartmentBody "department" = .bool false ∧
      isBlank (falseDepartmentBody "department") = false ∧
      trimmed falseDepartmentBody "department" = "false" ∧
      (validate sampleLib falseDepartmentBody).errors = [] ∧
      (inserts (postContact sampleLib acceptingStore falseDepartmentBody)).map
        (List.map Record.department) = [[.null]] :=
  ⟨rfl, rfl, by decide, rfl, rfl⟩

/-- C5, amended: for a body that passes validation and whose six fields are
not arrays, the contact route issues exactly one store call, the insert of a
single record: name, last_name, category and message are the trimmed fields,
email is the trimmed and normalized email, department is null when it is
falsy (absent, null, false, zero or the empty text) or whitespace-only and the
trimmed department otherwise; the record is the same for any two bodies that
agree on the six fields, so no other field reaches it. -/
theorem valid_body_inserts_normalized_record (lib : Lib) (store : List Record → StoreReply)
    (b : Body) (h : (validate lib b).errors = [])
    (hna : ∀ f ∈ contactFields, (b f).isArray = false) :
    inserts (postContact lib store b) = [[normalizedRecord lib b]] ∧
      storeCalls (postContact lib store b) = 1 ∧
      ((b "department").truthy = false → (normalizedRecord lib b).department = .null) ∧
      (isBlank (b "department") = true → (normalizedRecord lib b).department = .null) ∧
      (∀ s, b "department" = .str s → isBlank (.str s) = false →
        (normalizedRecord lib b).department = .str (Str.trim s)) ∧
      (∀ b2 : Body, (∀ f ∈ contactFields, b2 f = b f) →
        inserts (postContact lib store b2) = inserts (postContact lib store b)) := by
  have hv := postContact_valid lib store b h
  rw [buildRecord_validate lib b hna] at hv
  refine ⟨hv.1, hv.2, ?_, ?_, ?_, ?_⟩
  · intro hf
    simp [normalizedRecord, hf]
  · intro hb
    have ht := trimmed_of_blank b "department" hb
    have he : Str.isEmpty "" = true := by decide
    simp [normalizedRecord, ht, he]
  · intro s hs hb
    have h0 : s.length ≠ 0 := by
      intro h0
      have : s = "" := (length_eq_zero_iff s).mp h0
      subst this
      revert hb
      decide
    have hne : (Str.trim s).length ≠ 0 := by
      intro hl
      have hall := (trim_eq_empty_iff s).mp ((length_eq_zero_iff _).mp hl)
      simp [isBlank, hall] at hb
    simp [normalizedRecord, hs, trimmed, truthy_str, h0, toText_str, Str.isEmpty, hne]
  · intro b2 hag
    have h2 : (validate lib b2).errors = [] := by
      rw [validate_errors, specDetails_congr lib b b2 hag, ← validate_errors]
      exact h
    have hna2 : ∀ f ∈ contactFields, (b2 f).isArray = false := by
      intro f hf
      rw [hag f hf]
      exact hna f hf
    have hv2 := postContact_valid lib store b2 h2
    rw [buildRecord_validate lib b2 hna2] at hv2
    rw [hv2.1, hv.1, normalizedRecord_congr lib b b2 hag]

/-- Witness of C5: the scenario body. -/
theorem valid_body_inserts_normalized_record_witness :
    (validate sampleLib scenarioBody).errors = [] ∧
      (∀ f ∈ contactFields, (scenarioBody f).isArray = false) ∧
      inserts (postContact sampleLib acceptingStore scenarioBody) =
        [[normalizedRecord sampleLib scenarioBody]] ∧
      storeCalls (postContact sampleLib acceptingStore scenarioBody) = 1 :=
  ⟨rfl, by decide,
    (valid_body_inserts_normalized_record sampleLib acceptingStore scenarioBody rfl
      (by decide)).1,
    (valid_body_inserts_normalized_record sampleLib acceptingStore scenarioBody rfl
      (by decide)).2.1⟩

theorem contactHandler_reported (store : List Record → StoreReply) (req : Request)
    (data : Option (List Row)) (e : StoreError) (h : req.errors = [])
    (hs : store [buildRecord req.body] = .resolved data (some e)) :
    responses (contactHandler store req) = [(500, contactFailureBody false)] := by
  unfold contactHandler contactTry
  rw [h, hs]
  rfl

theorem contactHandler_thrown (store : List Record → StoreReply) (req : Request)
    (exn : Exn) (h : req.errors = [])
    (hs : store [buildRecord req.body] = .rejected exn) :
    responses (contactHandler store req) = [(500, contactFailureBody true)] := by
  unfold contactHandler contactTry
  rw [h, hs]
  rfl

theorem contactHandler_no_row (store : List Record → StoreReply) (req : Request)
    (h : req.errors = [])
    (hs : store [buildRecord req.body] = .resolved (some []) none ∨
      store [buildRecord req.body] = .resolved none none) :
    responses (contactHandler store req) = [(500, contactFailureBody true)] := by
  unfold contactHandler contactTry
  rcases hs with hs | hs <;>
  · rw [h, hs]
    rfl

theorem postContact_created (lib : Lib) (store : List Record → StoreReply) (b : Body)
    (row : Row) (rest : List Row) (h : (validate lib b).errors = [])
    (hs : store [buildRecord (validate lib b).body] = .resolved (some (row :: rest)) none) :
    responses (postContact lib store b) = [(201, createdBody row.id)] :=
  contactHandler_created store (validate lib b) row rest h hs

theorem postContact_failure (lib : Lib) (store : List Record → StoreReply) (b : Body)
    (k : Bool) (h : (validate lib b).errors = [])
    (hs : failureKind (store [buildRecord (validate lib b).body]) = some k) :
    responses (postContact lib store b) = [(500, contactFailureBody k)] := by
  cases hr : store [buildRecord (validate lib b).body] with
  | rejected exn =>
    rw [hr] at hs
    have hk : k = true := by simpa [failureKind] using hs.symm
    subst hk
    exact contactHandler_thrown store (validate lib b) exn h hr
  | resolved data error =>
    cases error with
    | none =>
      rw [hr] at hs
      simp [failureKind] at hs
    | some e =>
      rw [hr] at hs
      have hk : k = false := by simpa [failureKind] using hs.symm
      subst hk
      exact contactHandler_reported store (validate lib b) data e h hr

theorem postContact_no_row (lib : Lib) (store : List Record → StoreReply) (b : Body)
    (h : (validate lib b).errors = [])
    (hs : store [buildRecord (validate lib b).body] = .resolved (some []) none ∨
      store [buildRecord (validate lib b).body] = .resolved none none) :
    responses (postContact lib store b) = [(500, contactFailureBody true)] :=
  contactHandler_no_row store (validate lib b) h hs

theorem getSubmissions_failure (reply : StoreReply) (k : Bool)
    (hs : failureKind reply = some k) :
    responses (getSubmissions reply) = [(500, submissionsFailureBody k)] := by
  cases reply with
  | rejected exn =>
    have hk : k = true := by simpa [failureKind] using hs.symm
    subst hk
    simp [getSubmissions, submissionsTry, responses, submissionsFailureBody]
  | resolved data error =>
    cases error with
    | none => simp [failureKind] at hs
    | some e =>
      have hk : k = false := by simpa [failureKind] using hs.symm
      subst hk
      simp [getSubmissions, submissionsTry, responses, submissionsFailureBody]

theorem scenario_valid (lib : Lib) (h : lib.isEmail "jo@x.com" = true) :
    (validate lib scenarioBody).errors = [] := by
  have h1 : trimmedElements (scenarioBody "name") = [.str "Jo"] := rfl
  have h2 : trimmedElements (scenarioBody "lastName") = [.str "Do"] := rfl
  have h3 : trimmedElements (scenarioBody "email") = [.str "jo@x.com"] := rfl
  have h4 : (scenarioBody "department").truthy = false := by decide
  have h5 : trimmedElements (scenarioBody "category") = [.str "feedback"] := rfl
  have h6 : trimmedElements (scenarioBody "message") = [.str "1234567890"] := rfl
  have e1 : Str.isEmpty "Jo" = false := by decide
  have e2 : Str.isEmpty "Do" = false := by decide
  have e3 : Str.isEmpty "jo@x.com" = false := by decide
  have e5 : Str.isEmpty "feedback" = false := by decide
  have e6 : Str.isEmpty "1234567890" = false := by decide
  have l1 : Str.isLength (some 2) (some 255) "Jo" = true := by decide
  have l2 : Str.isLength (some 2) (some 255) "Do" = true := by decide
  have l6 : Str.isLength (some 10) (some 5000) "1234567890" = true := by decide
  have i5 : Str.isIn ["feedback", "suggestion", "problem"] "feedback" = true := by decide
  rw [validate_errors]
  simp [specDetails, nameViolations, lastNameViolations, emailViolations,
    departmentViolations, categoryViolations, messageViolations, lengthRules, violations,
    toText_str, h, h1, h2, h3, h4, h5, h6, e1, e2, e3, e5, e6, l1, l2, l6, i5]

/-- C6: for a body that passes validation, when the insert reports no error
and returns the stored row, the contact route responds 201 with success true
and submissionId equal to the id of that row; the scenario body (Jo, Do,
jo@x.com, feedback, 1234567890) passes validation, given that the email check
accepts jo@x.com, and receives 201 with the id the store returned. -/
theorem accepted_submission_created (lib : Lib) (store : List Record → StoreReply) :
    (∀ (b : Body) (row : Row) (rest : List Row), (validate lib b).errors = [] →
        store [buildRecord (validate lib b).body] = .resolved (some (row :: rest)) none →
        responses (postContact lib store b) =
          [(201, [("success", .bool true),
            ("message", .str "Your message has been received. We will get back to you soon!"),
            ("submissionId", .num row.id)])]) ∧
      (lib.isEmail "jo@x.com" = true →
        (validate lib scenarioBody).errors = [] ∧
        ∀ (row : Row) (rest : List Row),
          store [buildRecord (validate lib scenarioBody).body] =
            .resolved (some (row :: rest)) none →
          responses (postContact lib store scenarioBody) =
            [(201, [("success", .bool true),
              ("message", .str "Your message has been received. We will get back to you soon!"),
              ("submissionId", .num row.id)])]) := by
  refine ⟨?_, ?_⟩
  · intro b row rest h hs
    exact postContact_created lib store b row rest h hs
  · intro hmail
    refine ⟨scenario_valid lib hmail, ?_⟩
    intro row rest hs
    exact postContact_created lib store scenarioBody row rest (scenario_valid lib hmail) hs

/-- C7: when the store call reports an error or throws, the contact route (on
a body that passes validation) and the submissions route each respond with
status 500, and the response body is a constant that depends only on the
route and on whether the error was reported or thrown; hence two runs with
any two store failures of the same kind send identical responses. -/
theorem store_failure_generic_500 (lib : Lib) :
    (∀ (store : List Record → StoreReply) (b : Body) (k : Bool),
        (validate lib b).errors = [] →
        failureKind (store [buildRecord (validate lib b).body]) = some k →
        responses (postContact lib store b) = [(500, contactFailureBody k)]) ∧
      (∀ (reply : StoreReply) (k : Bool), failureKind reply = some k →
        responses (getSubmissions reply) = [(500, submissionsFailureBody k)]) ∧
      (∀ (s1 s2 : List Record → StoreReply) (b1 b2 : Body) (k : Bool),
        (validate lib b1).errors = [] → (validate lib b2).errors = [] →
        failureKind (s1 [buildRecord (validate lib b1).body]) = some k →
        failureKind (s2 [buildRecord (validate lib b2).body]) = some k →
        responses (postContact lib s1 b1) = responses (postContact lib s2 b2)) ∧
      (∀ (r1 r2 : StoreReply) (k : Bool), failureKind r1 = some k → failureKind r2 = some k →
        responses (getSubmissions r1) = responses (getSubmissions r2)) := by
  refine ⟨?_, ?_, ?_, ?_⟩
  · intro store b k h hs
    exact postContact_failure lib store b k h hs
  · intro reply k hs
    exact getSubmissions_failure reply k hs
  · intro s1 s2 b1 b2 k h1 h2 hs1 hs2
    rw [postContact_failure lib s1 b1 k h1 hs1, postContact_failure lib s2 b2 k h2 hs2]
  · intro r1 r2 k h1 h2
    rw [getSubmissions_failure r1 k h1, getSubmissions_failure r2 k h2]

/-- C8: for every body and every outcome of the store call the contact route
sends exactly one response, with status 201, 400 or 500, and the submissions
route sends exactly one response, with status 200 or 500; the JSON body has
success true or an error field.  When the insert reports no error but returns
no row, the contact route responds 500 with an error field. -/
theorem exactly_one_json_response (lib : Lib) (store : List Record → StoreReply) (b : Body)
    (reply : StoreReply) :
    (∃ status json, responses (postContact lib store b) = [(status, json)] ∧
        (status = 201 ∨ status = 400 ∨ status = 500) ∧
        (field? "success" json = some (.bool true) ∨ (field? "error" json).isSome = true)) ∧
      (∃ status json, responses (getSubmissions reply) = [(status, json)] ∧
        (status = 200 ∨ status = 500) ∧
        (field? "success" json = some (.bool true) ∨ (field? "error" json).isSome = true)) ∧
      ((validate lib b).errors = [] →
        (store [buildRecord (validate lib b).body] = .resolved (some []) none ∨
          store [buildRecord (validate lib b).body] = .resolved none none) →
        responses (postContact lib store b) =
          [(500, [("error", .str "An unexpected error occurred. Please try again later.")])]) := by
  refine ⟨?_, ?_, ?_⟩
  · by_cases h : (validate lib b).errors = []
    · cases hr : store [buildRecord (validate lib b).body] with
      | rejected exn =>
        refine ⟨500, contactFailureBody true, ?_, by simp, ?_⟩
        · exact postContact_failure lib store b true h (by rw [hr]; rfl)
        · right; rfl
      | resolved data error =>
        cases error with
        | some e =>
          refine ⟨500, contactFailureBody false, ?_, by simp, ?_⟩
          · exact postContact_failure lib store b false h (by rw [hr]; rfl)
          · right; rfl
        | none =>
          cases data with
          | none =>
            refine ⟨500, contactFailureBody true, ?_, by simp, ?_⟩
            · exact postContact_no_row lib store b h (Or.inr hr)
            · right; rfl
          | some rows =>
            cases rows with
            | nil =>
              refine ⟨500, contactFailureBody true, ?_, by simp, ?_⟩
              · exact postContact_no_row lib store b h (Or.inl hr)
              · right; rfl
            | cons row rest =>
              refine ⟨201, createdBody row.id, ?_, by simp, ?_⟩
              · exact postContact_created lib store b row rest h hr
              · left; rfl
    · refine ⟨400, [("error", .str "Validation failed"),
        ("details", .errors (validate lib b).errors)], ?_, by simp, ?_⟩
      · rw [postContact_invalid lib store b h]
        rfl
      · right; rfl
  · cases reply with
    | rejected exn =>
      refine ⟨500, submissionsFailureBody true, ?_, by simp, ?_⟩
      · exact getSubmissions_failure _ true rfl
      · right; rfl
    | resolved data error =>
      cases error with
      | some e =>
        refine ⟨500, submissionsFailureBody false, ?_, by simp, ?_⟩
        · exact getSubmissions_failure _ false rfl
        · right; rfl
      | none =>
        cases data with
        | none =>
          refine ⟨500, submissionsFailureBody true, ?_, by simp, ?_⟩
          · simp [getSubmissions, submissionsTry, responses, submissionsFailureBody]
          · right; rfl
        | some rows =>
          refine ⟨200, [("success", .bool true), ("count", .num rows.length),
            ("submissions", .rows rows)], ?_, by simp, ?_⟩
          · rfl
          · left; rfl
  · intro h hs
    exact postContact_no_row lib store b h hs

/-- Witness of C6: the scenario body with a store that returns row 7. -/
theorem accepted_submission_created_witness :
    sampleLib.isEmail "jo@x.com" = true ∧
      (validate sampleLib scenarioBody).errors = [] ∧
      responses (postContact sampleLib acceptingStore scenarioBody) =
        [(201, [("success", .bool true),
          ("message", .str "Your message has been received. We will get back to you soon!"),
          ("submissionId", .num 7)])] :=
  ⟨rfl,
    ((accepted_submission_created sampleLib acceptingStore).2 rfl).1,
    ((accepted_submission_created sampleLib acceptingStore).2 rfl).2 sampleRow [] rfl⟩

/-- Witness of C7: the scenario body with a store that reports an error. -/
theorem store_failure_generic_500_witness :
    (validate sampleLib scenarioBody).errors = [] ∧
      failureKind (failingStore [buildRecord (validate sampleLib scenarioBody).body]) =
        some false ∧
      responses (postContact sampleLib failingStore scenarioBody) =
        [(500, contactFailureBody false)] :=
  ⟨rfl, rfl,
    (store_failure_generic_500 sampleLib).1 failingStore scenarioBody false rfl rfl⟩

/-- Witness of C8: the scenario body with a store that returns no row. -/
theorem exactly_one_json_response_witness :
    (validate sampleLib scenarioBody).errors = [] ∧
      silentStore [buildRecord (validate sampleLib scenarioBody).body] =
        .resolved (some []) none ∧
      responses (postContact sampleLib silentStore scenarioBody) =
        [(500, [("error", .str "An unexpected error occurred. Please try again later.")])] :=
  ⟨rfl, rfl,
    (exactly_one_json_response sampleLib silentStore scenarioBody (.resolved none none)).2.2
      rfl (Or.inl rfl)⟩

end ContactApi
